import Mathlib

/-!
Shallow embedding of the rede-cnpj data pipeline
(`dados_cnpj_baixa_resiliente.py` and `dados_cnpj_para_sqlite_progresso.py`).

The downloader is modelled as a pure function over an environment that fixes
the outcome of each network interaction (the size probe and each download
attempt); the SQLite loader script is modelled as stage functions that emit a
list of primitive actions (drop/create/append table, remove file, mark the
progress ledger) which are then executed over an explicit pipeline state.
-/

namespace RedeCnpj

/-! ### Downloader (`dados_cnpj_baixa_resiliente.py`) -/

/-- An HTTP interaction outcome seen by `get_remote_file_size`: either a
response with a status code and an optional `Content-Length` header, or a
raised exception (connection error, timeout, ...). -/
inductive ProbeResponse where
  | ok (status : Nat) (contentLength : Option Nat)
  | exn
deriving DecidableEq, Repr

/-- First definition of `get_remote_file_size` (lines 27-35): returns the
`Content-Length` of a 200 response (defaulting to 0 when the header is
absent) and `0` on a non-200 status or on any exception.  It is silently
shadowed by the second definition below and never executes. -/
def get_remote_file_size_v1 : ProbeResponse → Int
  | .ok status cl => if status = 200 then (cl.getD 0 : Int) else 0
  | .exn => 0

/-- Second (effective) definition of `get_remote_file_size` (lines 47-55):
returns the `Content-Length` of a 200 response (defaulting to 0 when the
header is absent) and `-1` on a non-200 status or on any exception. -/
def get_remote_file_size : ProbeResponse → Int
  | .ok status cl => if status = 200 then (cl.getD 0 : Int) else -1
  | .exn => -1

/-- A file on disk, abstracted to the two attributes the script inspects:
its byte size (`os.path.getsize`) and whether `zipfile` accepts it. -/
structure FileData where
  size : Nat
  zipOk : Bool
deriving DecidableEq, Repr

/-- `is_zip_valid` (lines 38-44): opens the archive and checksums every
entry; any structural error yields `False`. -/
def is_zip_valid (f : FileData) : Bool := f.zipOk

/-- Outcome of one download attempt inside the retry loop: either an
exception during the transfer (network error, `raise_for_status`) or a
complete body written to `file_path`. -/
inductive AttemptResult where
  | netError
  | body (f : FileData)
deriving DecidableEq, Repr

/-- The environment of one `download_file` call: the probe's outcome, the
file initially present at the destination path (if any), and the body each
download attempt would produce. -/
structure FetchEnv where
  probe : ProbeResponse
  localFile : Option FileData
  attempts : Nat → AttemptResult

/-- What `download_file` returns and leaves behind: the boolean result, the
number of download (body-transfer) requests it issued, and the file present
at the destination path on return. -/
structure FetchOutcome where
  success : Bool
  transferCalls : Nat
  finalFile : Option FileData
deriving DecidableEq, Repr

/-- `max_tentativas` (line 18). -/
def max_tentativas : Nat := 3

/-- The post-download validation of attempt `k` (line 100):
`is_zip_valid(file_path) and os.path.getsize(file_path) == remote_size`.
A `netError` attempt never reaches the validation. -/
def attemptPasses (remote : Int) : AttemptResult → Bool
  | .netError => false
  | .body f => is_zip_valid f && ((f.size : Int) == remote)

/-- The retry loop of `download_file` (lines 78-112).  Each attempt issues
one body transfer; a validated body returns success immediately, any failure
deletes the partial file and moves to the next attempt; exhausting the
budget leaves no file on disk. -/
def download_attempts (remote : Int) (att : Nat → AttemptResult) :
    Nat → Nat → FetchOutcome
  | 0, _ => { success := false, transferCalls := 0, finalFile := none }
  | fuel + 1, k =>
    if attemptPasses remote (att k) then
      { success := true, transferCalls := 1,
        finalFile := match att k with | .body f => some f | .netError => none }
    else
      let r := download_attempts remote att fuel (k + 1)
      { r with transferCalls := r.transferCalls + 1 }

/-- `download_file` (lines 58-112): probe the remote size, fail immediately
on a failed probe, skip when the local file already matches, otherwise
delete the stale file and run the retry loop. -/
def download_file (env : FetchEnv) : FetchOutcome :=
  let remote_size := get_remote_file_size env.probe
  if remote_size == -1 then
    { success := false, transferCalls := 0, finalFile := env.localFile }
  else
    match env.localFile with
    | some f =>
      if ((f.size : Int) == remote_size) && is_zip_valid f then
        { success := true, transferCalls := 0, finalFile := some f }
      else
        download_attempts remote_size env.attempts max_tentativas 0
    | none => download_attempts remote_size env.attempts max_tentativas 0

/-! ### Progress ledger (`dados_cnpj_para_sqlite_progresso.py`, lines 36-49)

The `_progresso` table has `etapa` as primary key, so the ledger is a map
from stage ids to rows. -/

/-- One row of the `_progresso` table (besides the key `etapa`). -/
structure ProgressRow where
  status : String
  data_execucao : Nat
deriving DecidableEq, Repr

/-- The `_progresso` table, keyed by `etapa` (its primary key). -/
def Ledger : Type := String → Option ProgressRow

/-- `etapa_concluida` (lines 43-45): the stage's row exists with status
`ok`. -/
def etapa_concluida (L : Ledger) (etapa : String) : Bool :=
  match L etapa with
  | some r => r.status == "ok"
  | none => false

/-- `marcar_etapa_concluida` (lines 47-49): `INSERT OR REPLACE` of
`(etapa, 'ok', datetime('now'))`, an upsert keyed on `etapa`; `now` is the
wall-clock value of `datetime('now')` at the call. -/
def marcar_etapa_concluida (L : Ledger) (etapa : String) (now : Nat) : Ledger :=
  fun e => if e = etapa then some { status := "ok", data_execucao := now } else L e

/-! ### CSV decoding

Both loaders read semicolon-separated latin1 text with `dtype=str`.  The
lookup loader (`pd.read_csv`, line 77) leaves pandas' NA filtering at its
default, so an empty field (or any default NA token) becomes NaN and is
stored as SQL NULL; the fact loader (`dd.read_csv`, line 136) passes
`na_filter=None`, a falsy value that disables NA filtering, so every field
is kept verbatim as text.  A decoded field is `none` (NaN/NULL) or
`some s`. -/

/-- Configuration of one `read_csv` call, as passed at the call site (the
source passes the delimiter as a one-character string; it is kept here as
that character). -/
structure CsvConfig where
  sep : Char
  encoding : String
  na_filter : Bool
deriving DecidableEq, Repr

/-- The default NA tokens pandas recognizes when `na_filter` is on (the
full default list has further spellings; the empty string is the one these
inputs produce). -/
def pandasDefaultNA : List String := ["", "NA", "N/A", "NaN", "null", "NULL"]

/-- Decode one field under a `read_csv` configuration. -/
def decodeField (cfg : CsvConfig) (s : String) : Option String :=
  if cfg.na_filter && pandasDefaultNA.contains s then none else some s

/-- Split a character list at every occurrence of `sep` (`acc` holds the
reversed current field). -/
def splitOnChar (sep : Char) : List Char → List Char → List (List Char)
  | [], acc => [acc.reverse]
  | c :: cs, acc =>
    if c = sep then acc.reverse :: splitOnChar sep cs []
    else splitOnChar sep cs (c :: acc)

/-- Split one input line on the configured delimiter and decode each
field. -/
def parseLine (cfg : CsvConfig) (line : String) : List (Option String) :=
  (splitOnChar cfg.sep line.data []).map (fun cs => decodeField cfg (String.mk cs))

/-- Decode a whole file (`header=None`: every line is a data row). -/
def read_csv (cfg : CsvConfig) (lines : List String) : List (List (Option String)) :=
  lines.map (parseLine cfg)

/-- The `pd.read_csv` call of `carregaTabelaCodigo` (line 77):
`sep=';', dtype=str, encoding='latin1'`, NA filtering left at its
default. -/
def lookupCsvConfig : CsvConfig :=
  { sep := ';', encoding := "latin1", na_filter := true }

/-- The `dd.read_csv` call of the fact-table loop (line 136):
`sep=';', encoding='latin1', dtype=str, na_filter=None` (falsy: NA
filtering disabled). -/
def factCsvConfig : CsvConfig :=
  { sep := ';', encoding := "latin1", na_filter := false }

/-! ### Filesystem, tables and pipeline state -/

/-- A decoded file in `pasta_saida`: its name and its raw lines. -/
structure DFile where
  name : String
  lines : List String
deriving DecidableEq, Repr

/-- A SQLite table: its column names and its rows (a field is `none` when
NULL was stored). -/
structure Table where
  cols : List String
  rows : List (List (Option String))
deriving DecidableEq, Repr

/-- The state the loader script acts on: the `_progresso` ledger, the data
tables of `cnpj.db`, the decoded files in `pasta_saida`, the zip archives
of `pasta_compactados` (name and contents), and the current wall-clock
value used for `datetime('now')`. -/
structure PState where
  ledger : Ledger
  tables : String → Option Table
  files : List DFile
  zips : List (String × List DFile)
  now : Nat

/-- Is the first list a prefix of the second? -/
def isPrefixC : List Char → List Char → Bool
  | [], _ => true
  | _ :: _, [] => false
  | a :: as, b :: bs => a == b && isPrefixC as bs

/-- Is the first list a suffix of the second? -/
def isSuffixC (seg s : List Char) : Bool :=
  isPrefixC seg.reverse s.reverse

/-- Find the first occurrence of `seg` in the list and return what follows
it; `none` when `seg` does not occur. -/
def dropAfterSub (seg : List Char) : List Char → Option (List Char)
  | [] => if seg.isEmpty then some [] else none
  | c :: cs =>
    if isPrefixC seg (c :: cs) then some ((c :: cs).drop seg.length)
    else dropAfterSub seg cs

/-- Match the `*`-separated literal segments of a glob pattern (those after
the first one) against a string: the final segment must be a suffix, every
intermediate segment must occur in order. -/
def globSegs : List (List Char) → List Char → Bool
  | [], s => s.isEmpty
  | [seg], s => isSuffixC seg s
  | seg :: rest, s =>
    match dropAfterSub seg s with
    | some rem => globSegs rest rem
    | none => false

/-- `glob.glob`-style matching of one pattern against one name: `*` matches
any (possibly empty) character sequence, every other pattern character
matches itself. -/
def globMatch (pat name : String) : Bool :=
  match splitOnChar '*' pat.data [] with
  | [] => name.data.isEmpty
  | seg0 :: rest =>
    isPrefixC seg0 name.data && globSegs rest (name.data.drop seg0.length)

/-- `glob.glob(os.path.join(pasta_saida, pat))` over the modelled decoded
files. -/
def glob (files : List DFile) (pat : String) : List DFile :=
  files.filter (fun f => globMatch pat f.name)

/-- `bApagaDescompactadosAposUso` (line 19). -/
def bApagaDescompactadosAposUso : Bool := true

/-- The primitive effects the loader script performs, in program order. -/
inductive Act where
  | dropTable (t : String)
  | createTable (t : String) (cols : List String)
  | appendCsv (t : String) (cols : List String) (fname : String)
  | replaceCsv (t : String) (fname : String)
  | createIndex (t : String) (col : String)
  | removeFile (fname : String)
  | extractZip (zname : String)
  | markOk (etapa : String)
deriving DecidableEq, Repr

/-- Look a decoded file up by name. -/
def findFile (files : List DFile) (n : String) : Option DFile :=
  files.find? (fun f => f.name == n)

/-- Execute one primitive effect on the pipeline state. -/
def applyAct (st : PState) : Act → PState
  | .dropTable t =>
    { st with tables := fun x => if x = t then none else st.tables x }
  | .createTable t cols =>
    { st with tables := fun x =>
        if x = t then some { cols := cols, rows := [] } else st.tables x }
  | .appendCsv t cols fname =>
    let newRows := match findFile st.files fname with
      | some f => read_csv factCsvConfig f.lines
      | none => []
    let tb := match st.tables t with
      | some tb => { tb with rows := tb.rows ++ newRows }
      | none => { cols := cols, rows := newRows }
    { st with tables := fun x => if x = t then some tb else st.tables x }
  | .replaceCsv t fname =>
    let newRows := match findFile st.files fname with
      | some f => read_csv lookupCsvConfig f.lines
      | none => []
    { st with tables := fun x =>
        if x = t then some { cols := ["codigo", "descricao"], rows := newRows }
        else st.tables x }
  | .createIndex _ _ => st
  | .removeFile fname =>
    { st with files := st.files.filter (fun f => f.name != fname) }
  | .extractZip z =>
    match st.zips.find? (fun p => p.1 == z) with
    | some p => { st with files := st.files ++ p.2 }
    | none => st
  | .markOk etapa =>
    { st with ledger := marcar_etapa_concluida st.ledger etapa st.now }

/-- Execute a list of effects in order. -/
def run (acts : List Act) (st : PState) : PState :=
  acts.foldl applyAct st

/-! ### Stage plans

Each stage of the script is modelled as the list of primitive effects it
performs, computed from the state at stage entry (the globs are evaluated
once, before the work), in source order.  Running a prefix of a plan models
interrupting the stage at that point. -/

/-- Stage 1, `descompactar` (lines 51-66): skip when already concluded,
otherwise extract every zip archive into `pasta_saida`, then mark the
stage. -/
def descompactar_plan (st : PState) : List Act :=
  if etapa_concluida st.ledger "descompactar" then []
  else (st.zips.map (fun p => Act.extractZip p.1)) ++ [Act.markOk "descompactar"]

/-- `carregaTabelaCodigo` (lines 69-83) as its effect plan: skip when
concluded; otherwise index `[0]` of the glob result — `none` models the
uncaught `IndexError` when the glob matches nothing, raised before any
effect — then replace the table from the file, create the index, remove the
source file when `bApagaDescompactadosAposUso`, and mark the stage. -/
def codigo_plan (ext nomeTabela : String) (st : PState) : Option (List Act) :=
  let etapa := "codigo_" ++ nomeTabela
  if etapa_concluida st.ledger etapa then some []
  else
    match glob st.files ("*" ++ ext) with
    | [] => none
    | arquivo :: _ =>
      some ([Act.replaceCsv nomeTabela arquivo.name,
             Act.createIndex nomeTabela "codigo"]
            ++ (if bApagaDescompactadosAposUso then [Act.removeFile arquivo.name] else [])
            ++ [Act.markOk etapa])

/-- `carregaTabelaCodigo` run to completion; `none` when the stage dies on
the uncaught `IndexError` (no effect performed). -/
def carregaTabelaCodigo (ext nomeTabela : String) (st : PState) : Option PState :=
  (codigo_plan ext nomeTabela st).map (fun acts => run acts st)

/-- One entry of the `TABELAS` schema dictionary (lines 93-122). -/
structure TableMeta where
  name : String
  ext : String
  colunas : List String
deriving DecidableEq, Repr

/-- One iteration of the fact-table loop (lines 124-140) as its effect
plan: skip when concluded; otherwise drop and recreate the table, then for
every file matching the extension glob append its rows and remove it when
`bApagaDescompactadosAposUso`, and finally mark the stage. -/
def carga_plan (meta : TableMeta) (st : PState) : List Act :=
  let etapa := "carga_" ++ meta.name
  if etapa_concluida st.ledger etapa then []
  else
    [Act.dropTable meta.name, Act.createTable meta.name meta.colunas]
    ++ ((glob st.files ("*" ++ meta.ext)).flatMap (fun f =>
          [Act.appendCsv meta.name meta.colunas f.name]
          ++ (if bApagaDescompactadosAposUso then [Act.removeFile f.name] else [])))
    ++ [Act.markOk etapa]

/-- One iteration of the fact-table loop run to completion. -/
def carga_tabela (meta : TableMeta) (st : PState) : PState :=
  run (carga_plan meta st) st

/-- `TABELAS['empresas']`. -/
def meta_empresas : TableMeta :=
  { name := "empresas", ext := ".EMPRECSV",
    colunas := ["cnpj_basico", "razao_social", "natureza_juridica",
      "qualificacao_responsavel", "capital_social_str", "porte_empresa",
      "ente_federativo_responsavel"] }

/-- `TABELAS['estabelecimento']`. -/
def meta_estabelecimento : TableMeta :=
  { name := "estabelecimento", ext := ".ESTABELE",
    colunas := ["cnpj_basico", "cnpj_ordem", "cnpj_dv", "matriz_filial",
      "nome_fantasia", "situacao_cadastral", "data_situacao_cadastral",
      "motivo_situacao_cadastral", "nome_cidade_exterior", "pais",
      "data_inicio_atividades", "cnae_fiscal", "cnae_fiscal_secundaria",
      "tipo_logradouro", "logradouro", "numero", "complemento", "bairro",
      "cep", "uf", "municipio", "ddd1", "telefone1", "ddd2", "telefone2",
      "ddd_fax", "fax", "correio_eletronico", "situacao_especial",
      "data_situacao_especial"] }

/-- `TABELAS['socios_original']`. -/
def meta_socios_original : TableMeta :=
  { name := "socios_original", ext := ".SOCIOCSV",
    colunas := ["cnpj_basico", "identificador_de_socio", "nome_socio",
      "cnpj_cpf_socio", "qualificacao_socio", "data_entrada_sociedade",
      "pais", "representante_legal", "nome_representante",
      "qualificacao_representante_legal", "faixa_etaria"] }

/-- `TABELAS['simples']`. -/
def meta_simples : TableMeta :=
  { name := "simples", ext := ".SIMPLES.CSV.*",
    colunas := ["cnpj_basico", "opcao_simples", "data_opcao_simples",
      "data_exclusao_simples", "opcao_mei", "data_opcao_mei",
      "data_exclusao_mei"] }

/-! ### Concrete instances used to witness the theorems -/

/-- The empty `_progresso` ledger of a fresh database. -/
def emptyLedger : Ledger := fun _ => none

/-- A fetch environment whose local file already matches the remote:
size 5, structurally valid, probe answering 200 with `Content-Length: 5`. -/
def envSkip : FetchEnv :=
  { probe := .ok 200 (some 5),
    localFile := some { size := 5, zipOk := true },
    attempts := fun _ => .netError }

/-- A fetch environment with no local file whose every attempt raises a
network error; the probe answers 200 with `Content-Length: 10`. -/
def envFail : FetchEnv :=
  { probe := .ok 200 (some 10),
    localFile := none,
    attempts := fun _ => .netError }

/-- A fetch environment whose probe raises, with a stale local file. -/
def envProbeDown : FetchEnv :=
  { probe := .exn,
    localFile := some { size := 7, zipOk := false },
    attempts := fun _ => .body { size := 7, zipOk := true } }

/-- A probe that obtained no 200 response: a raised exception or a non-200
status code. -/
def probeNoResponse : ProbeResponse → Bool
  | .exn => true
  | .ok status _ => status != 200

/-- Does an action write the progress ledger? -/
def isMark : Act → Bool
  | .markOk _ => true
  | _ => false

/-- A fresh-database pipeline state with no decoded files. -/
def stEmpty : PState :=
  { ledger := emptyLedger, tables := fun _ => none,
    files := [], zips := [], now := 0 }

/-- A fresh-database pipeline state holding one lookup file and one fact
shard, plus two zip archives. -/
def stW : PState :=
  { ledger := emptyLedger, tables := fun _ => none,
    files := [{ name := "F.CNAECSV", lines := ["01;Cultivo de arroz"] },
              { name := "A.EMPRECSV", lines := ["1;a;;;;;"] }],
    zips := [("Cnaes.zip", []), ("Empresas0.zip", [])], now := 0 }

/-- The effect plan `codigo_plan ".CNAECSV" "cnae"` computes at `stW`. -/
def codigoActsW : List Act :=
  [Act.replaceCsv "cnae" "F.CNAECSV", Act.createIndex "cnae" "codigo",
   Act.removeFile "F.CNAECSV", Act.markOk "codigo_cnae"]

/-- A fresh-database state whose `empresas` fact table has two shard
files of one row each. -/
def c1_state : PState :=
  { ledger := emptyLedger, tables := fun _ => none,
    files := [{ name := "A.EMPRECSV", lines := ["1;a;;;;;"] },
              { name := "B.EMPRECSV", lines := ["2;b;;;;;"] }],
    zips := [], now := 0 }

/-- A fresh-database state holding one lookup file whose single line has
an empty second field. -/
def c9_state : PState :=
  { ledger := emptyLedger, tables := fun _ => none,
    files := [{ name := "F.CNAECSV", lines := ["01;"] }],
    zips := [], now := 0 }

/-! ### Claim theorems: downloader -/

/-- Claim C2: If a file already exists at the destination path, its byte size
equals the probed remote size, and the zip integrity check accepts it, then
`download_file` returns success with zero transfer calls, leaving that very
file in place. -/
theorem download_file_skip_valid_local (env : FetchEnv) (f : FileData)
    (hloc : env.localFile = some f)
    (hsize : (f.size : Int) = get_remote_file_size env.probe)
    (hzip : is_zip_valid f = true) :
    download_file env =
      { success := true, transferCalls := 0, finalFile := some f } := by
  have h0 : (0 : Int) ≤ get_remote_file_size env.probe := by
    rw [← hsize]; exact Int.natCast_nonneg _
  have hne : get_remote_file_size env.probe ≠ -1 := by omega
  simp [download_file, hloc, hzip, ← hsize, hne]

/-- Witness for C2 at `envSkip`. -/
theorem download_file_skip_valid_local_witness :
    download_file envSkip =
      { success := true, transferCalls := 0,
        finalFile := some { size := 5, zipOk := true } } :=
  download_file_skip_valid_local envSkip { size := 5, zipOk := true }
    rfl (by decide) rfl

/-- Claim C7: When the size probe fails (`get_remote_file_size` returns the
`-1` sentinel), `download_file` returns failure immediately: no download
attempt is made and the destination path is left untouched. -/
theorem download_file_probe_failure_no_attempt (env : FetchEnv)
    (h : get_remote_file_size env.probe = -1) :
    download_file env =
      { success := false, transferCalls := 0, finalFile := env.localFile } := by
  simp [download_file, h]

/-- Witness for C7 at `envProbeDown`. -/
theorem download_file_probe_failure_no_attempt_witness :
    download_file envProbeDown =
      { success := false, transferCalls := 0,
        finalFile := some { size := 7, zipOk := false } } :=
  download_file_probe_failure_no_attempt envProbeDown rfl

/-- The retry loop with budget 3 whose every attempt fails validation:
failure, three transfers, no file left. -/
theorem download_attempts_all_fail (remote : Int) (att : Nat → AttemptResult)
    (h0 : attemptPasses remote (att 0) = false)
    (h1 : attemptPasses remote (att 1) = false)
    (h2 : attemptPasses remote (att 2) = false) :
    download_attempts remote att 3 0 =
      { success := false, transferCalls := 3, finalFile := none } := by
  simp [download_attempts, h0, h1, h2]

/-- Claim C3: When the probe succeeds but every one of the 3 attempts fails
validation (network error, size mismatch or corrupt archive), and any
pre-existing local file was stale, `download_file` returns failure after 3
transfer calls and leaves no file at the destination path. -/
theorem download_file_retry_exhaustion_no_artifact (env : FetchEnv)
    (hprobe : get_remote_file_size env.probe ≠ -1)
    (hstale : ∀ f, env.localFile = some f →
      (((f.size : Int) == get_remote_file_size env.probe) && is_zip_valid f) = false)
    (hfail : ∀ k, k < max_tentativas →
      attemptPasses (get_remote_file_size env.probe) (env.attempts k) = false) :
    download_file env =
      { success := false, transferCalls := 3, finalFile := none } := by
  have h0 := hfail 0 (by decide)
  have h1 := hfail 1 (by decide)
  have h2 := hfail 2 (by decide)
  have hloop := download_attempts_all_fail (get_remote_file_size env.probe)
    env.attempts h0 h1 h2
  cases hL : env.localFile with
  | none => simpa [download_file, hprobe, hL, max_tentativas] using hloop
  | some f => simpa [download_file, hprobe, hL, hstale f hL, max_tentativas] using hloop

/-- Witness for C3 at `envFail`. -/
theorem download_file_retry_exhaustion_no_artifact_witness :
    download_file envFail =
      { success := false, transferCalls := 3, finalFile := none } :=
  download_file_retry_exhaustion_no_artifact envFail (by decide)
    (fun f hf => by simp [envFail] at hf) (fun k _ => by rfl)

/-- Claim C6, counterexample: A 200 response with no `Content-Length` header —
a probe that could not determine the remote length — returns `0`, the very
value returned when the remote length is actually zero: the probe's result
does not always distinguish the two, and this failure case yields no
non-zero sentinel. -/
theorem get_remote_file_size_missing_length_counterexample :
    get_remote_file_size (.ok 200 none) = 0 ∧
    get_remote_file_size (.ok 200 (some 0)) = 0 := by
  constructor <;> rfl

/-- Claim C6, amended: On a raised exception or a non-200 response the probe
returns the distinguished non-zero sentinel `-1`; but a 200 response
lacking a `Content-Length` header returns `0`, indistinguishable from an
actual zero remote length. -/
theorem get_remote_file_size_sentinel_amended (r : ProbeResponse)
    (h : probeNoResponse r = true) :
    get_remote_file_size r = -1 ∧
    get_remote_file_size (.ok 200 none) = 0 := by
  refine ⟨?_, rfl⟩
  cases r with
  | exn => rfl
  | ok status cl =>
    have hs : status ≠ 200 := by simpa [probeNoResponse] using h
    simp [get_remote_file_size, hs]

/-- Witness for the amended C6 at a raised exception. -/
theorem get_remote_file_size_sentinel_amended_witness :
    get_remote_file_size .exn = -1 ∧
    get_remote_file_size (.ok 200 none) = 0 :=
  get_remote_file_size_sentinel_amended .exn rfl

/-! ### Claim theorems: progress ledger -/

/-- Claim C5: `marcar_etapa_concluida` is an upsert keyed on the stage id:
calling it twice leaves the ledger exactly as the single (second) call
would, `etapa_concluida` afterwards deterministically returns true, and
rows of every other stage id are untouched. -/
theorem marcar_etapa_idempotent_upsert (L : Ledger) (e : String) (t₁ t₂ : Nat) :
    marcar_etapa_concluida (marcar_etapa_concluida L e t₁) e t₂ =
      marcar_etapa_concluida L e t₂ ∧
    etapa_concluida (marcar_etapa_concluida L e t₂) e = true ∧
    ∀ x, x ≠ e → marcar_etapa_concluida L e t₂ x = L x := by
  refine ⟨funext fun x => ?_, ?_, fun x hx => ?_⟩
  · by_cases hx : x = e <;> simp [marcar_etapa_concluida, hx]
  · simp [etapa_concluida, marcar_etapa_concluida]
  · simp [marcar_etapa_concluida, hx]

/-- Witness for C5 on the empty ledger at stage id `carga_empresas`. -/
theorem marcar_etapa_idempotent_upsert_witness :
    marcar_etapa_concluida (marcar_etapa_concluida emptyLedger "carga_empresas" 1)
        "carga_empresas" 2 =
      marcar_etapa_concluida emptyLedger "carga_empresas" 2 ∧
    etapa_concluida (marcar_etapa_concluida emptyLedger "carga_empresas" 2)
        "carga_empresas" = true ∧
    marcar_etapa_concluida emptyLedger "carga_empresas" 2 "descompactar" =
      emptyLedger "descompactar" :=
  ⟨(marcar_etapa_idempotent_upsert emptyLedger "carga_empresas" 1 2).1,
   (marcar_etapa_idempotent_upsert emptyLedger "carga_empresas" 1 2).2.1,
   (marcar_etapa_idempotent_upsert emptyLedger "carga_empresas" 1 2).2.2
     "descompactar" (by decide)⟩

/-! ### Claim theorems: loader stages -/

/-- An action other than `markOk` leaves the ledger untouched. -/
theorem applyAct_ledger_of_not_mark (st : PState) (a : Act)
    (h : isMark a = false) : (applyAct st a).ledger = st.ledger := by
  cases a with
  | extractZip z =>
    cases hf : st.zips.find? (fun p => p.1 == z) <;> simp [applyAct, hf]
  | markOk e => simp [isMark] at h
  | dropTable t => rfl
  | createTable t cols => rfl
  | appendCsv t cols fname => rfl
  | replaceCsv t fname => rfl
  | createIndex t c => rfl
  | removeFile fname => rfl

/-- Running a list of actions none of which is a `markOk` leaves the whole
ledger untouched. -/
theorem run_ledger_of_no_mark : ∀ (acts : List Act) (st : PState),
    (∀ a ∈ acts, isMark a = false) → (run acts st).ledger = st.ledger
  | [], _, _ => rfl
  | a :: rest, st, h => by
    calc (run (a :: rest) st).ledger
        = (run rest (applyAct st a)).ledger := rfl
      _ = (applyAct st a).ledger :=
          run_ledger_of_no_mark rest (applyAct st a)
            (fun b hb => h b (List.mem_cons_of_mem a hb))
      _ = st.ledger :=
          applyAct_ledger_of_not_mark st a (h a (List.mem_cons_self a rest))

/-- Running any proper prefix of a plan of the shape
`effects ++ [markOk e]`, with `effects` mark-free, leaves the whole ledger
untouched. -/
theorem prefix_ledger_of_shape (st : PState) (effects : List Act)
    (e : String) (k : Nat)
    (heff : ∀ a ∈ effects, isMark a = false)
    (hk : k < (effects ++ [Act.markOk e]).length) :
    (run ((effects ++ [Act.markOk e]).take k) st).ledger = st.ledger := by
  apply run_ledger_of_no_mark
  intro a ha
  have hk' : k ≤ effects.length := by
    simp only [List.length_append, List.length_cons, List.length_nil] at hk
    omega
  rw [List.take_append_of_le_length hk'] at ha
  exact heff a (List.mem_of_mem_take ha)

/-- Claim C4: In every stage — extraction, each lookup-table load, each
fact-table load — `marcar_etapa_concluida` for the stage's id comes only
after all of the stage's side effects: running any proper prefix of the
stage's effect plan (an interruption before the end) leaves the progress
ledger exactly as it was, so the stage is never recorded `ok` while any of
its effects is still pending. -/
theorem stages_mark_complete_last (st : PState) (ext nome : String)
    (meta : TableMeta) (k : Nat) :
    (k < (descompactar_plan st).length →
      (run ((descompactar_plan st).take k) st).ledger = st.ledger) ∧
    (∀ acts, codigo_plan ext nome st = some acts → k < acts.length →
      (run (acts.take k) st).ledger = st.ledger) ∧
    (k < (carga_plan meta st).length →
      (run ((carga_plan meta st).take k) st).ledger = st.ledger) := by
  refine ⟨fun hk => ?_, fun acts hp hk => ?_, fun hk => ?_⟩
  · by_cases hc : etapa_concluida st.ledger "descompactar" = true
    · simp [descompactar_plan, hc] at hk
    · rw [descompactar_plan, if_neg hc] at hk ⊢
      refine prefix_ledger_of_shape st _ _ k ?_ hk
      intro a ha
      simp only [List.mem_map] at ha
      obtain ⟨p, _, rfl⟩ := ha
      rfl
  · by_cases hc : etapa_concluida st.ledger ("codigo_" ++ nome) = true
    · simp only [codigo_plan, if_pos hc, Option.some.injEq] at hp
      subst hp
      simp at hk
    · cases hg : glob st.files ("*" ++ ext) with
      | nil => simp [codigo_plan, if_neg hc, hg] at hp
      | cons arquivo rest =>
        simp only [codigo_plan, if_neg hc, hg, Option.some.injEq] at hp
        subst hp
        refine prefix_ledger_of_shape st _ _ k ?_ hk
        intro a ha
        rcases List.mem_append.mp ha with h | h
        · simp only [List.mem_cons, List.not_mem_nil, or_false] at h
          rcases h with rfl | rfl <;> rfl
        · by_cases hb : bApagaDescompactadosAposUso = true
          · rw [if_pos hb] at h
            simp only [List.mem_cons, List.not_mem_nil, or_false] at h
            subst h; rfl
          · rw [if_neg hb] at h
            cases h
  · by_cases hc : etapa_concluida st.ledger ("carga_" ++ meta.name) = true
    · simp [carga_plan, hc] at hk
    · simp only [carga_plan, if_neg hc] at hk ⊢
      refine prefix_ledger_of_shape st _ _ k ?_ hk
      intro a ha
      rcases List.mem_append.mp ha with h | h
      · simp only [List.mem_cons, List.not_mem_nil, or_false] at h
        rcases h with rfl | rfl <;> rfl
      · simp only [List.mem_flatMap] at h
        obtain ⟨f, _, hf⟩ := h
        rcases List.mem_append.mp hf with h | h
        · simp only [List.mem_cons, List.not_mem_nil, or_false] at h
          subst h; rfl
        · by_cases hb : bApagaDescompactadosAposUso = true
          · rw [if_pos hb] at h
            simp only [List.mem_cons, List.not_mem_nil, or_false] at h
            subst h; rfl
          · rw [if_neg hb] at h
            cases h

/-- Witness for C4 at `stW`, interrupting each stage after its second
action. -/
theorem stages_mark_complete_last_witness :
    (run ((descompactar_plan stW).take 2) stW).ledger = stW.ledger ∧
    (run (codigoActsW.take 2) stW).ledger = stW.ledger ∧
    (run ((carga_plan meta_empresas stW).take 2) stW).ledger = stW.ledger :=
  ⟨(stages_mark_complete_last stW ".CNAECSV" "cnae" meta_empresas 2).1 (by decide),
   (stages_mark_complete_last stW ".CNAECSV" "cnae" meta_empresas 2).2.1
     codigoActsW (by decide) (by decide),
   (stages_mark_complete_last stW ".CNAECSV" "cnae" meta_empresas 2).2.2 (by decide)⟩

/-- Claim C8: A fact table whose source glob matches zero decoded files loads
without error: the destination table is created empty and the stage is
marked complete. -/
theorem carga_empty_glob_empty_table (meta : TableMeta) (st : PState)
    (hc : etapa_concluida st.ledger ("carga_" ++ meta.name) = false)
    (hg : glob st.files ("*" ++ meta.ext) = []) :
    (carga_tabela meta st).tables meta.name =
      some { cols := meta.colunas, rows := [] } ∧
    etapa_concluida (carga_tabela meta st).ledger ("carga_" ++ meta.name) = true := by
  have hplan : carga_plan meta st =
      [Act.dropTable meta.name, Act.createTable meta.name meta.colunas,
       Act.markOk ("carga_" ++ meta.name)] := by
    simp [carga_plan, hc, hg]
  rw [carga_tabela, hplan]
  constructor
  · simp [run, applyAct]
  · simp [run, applyAct, etapa_concluida, marcar_etapa_concluida]

/-- Witness for C8: the `empresas` load on a state with no decoded files. -/
theorem carga_empty_glob_empty_table_witness :
    (carga_tabela meta_empresas stEmpty).tables meta_empresas.name =
      some { cols := meta_empresas.colunas, rows := [] } ∧
    etapa_concluida (carga_tabela meta_empresas stEmpty).ledger
      ("carga_" ++ meta_empresas.name) = true :=
  carga_empty_glob_empty_table meta_empresas stEmpty rfl rfl

/-- Claim C10: A lookup-table load whose extension pattern matches zero
decoded files dies on the uncaught exception raised by indexing the empty
glob result, before any effect: no destination table is created, replaced
or indexed and the stage is not marked complete (`carregaTabelaCodigo`
yields no successor state). -/
theorem codigo_zero_match_crashes (ext nome : String) (st : PState)
    (hc : etapa_concluida st.ledger ("codigo_" ++ nome) = false)
    (hg : glob st.files ("*" ++ ext) = []) :
    carregaTabelaCodigo ext nome st = none := by
  simp [carregaTabelaCodigo, codigo_plan, hc, hg]

/-- Witness for C10: the `motivo` load on a state with no decoded files. -/
theorem codigo_zero_match_crashes_witness :
    carregaTabelaCodigo ".MOTICSV" "motivo" stEmpty = none :=
  codigo_zero_match_crashes ".MOTICSV" "motivo" stEmpty rfl rfl

/-- Claim C1 (code bug): Interrupting the `carga_empresas` load right after
shard `A.EMPRECSV` has been appended — the loop deletes each shard right
after appending it (`bApagaDescompactadosAposUso`), and the ledger is not
yet marked — and then rerunning the stage yields a table holding only
shard `B`'s row, while the uninterrupted run holds both rows: the rerun
does not reproduce the uninterrupted final row set even though it drops
and recreates the table, because the deleted shard no longer matches the
glob on rerun. -/
theorem carga_interrupted_rerun_loses_rows :
    (carga_tabela meta_empresas
        (run ((carga_plan meta_empresas c1_state).take 4) c1_state)).tables
        "empresas" =
      some { cols := meta_empresas.colunas,
             rows := [[some "2", some "b", some "", some "", some "",
                       some "", some ""]] } ∧
    (carga_tabela meta_empresas c1_state).tables "empresas" =
      some { cols := meta_empresas.colunas,
             rows := [[some "1", some "a", some "", some "", some "",
                       some "", some ""],
                      [some "2", some "b", some "", some "", some "",
                       some "", some ""]] } ∧
    (carga_tabela meta_empresas
        (run ((carga_plan meta_empresas c1_state).take 4) c1_state)).tables
        "empresas" ≠
      (carga_tabela meta_empresas c1_state).tables "empresas" := by
  exact ⟨by decide, by decide, by decide⟩

/-- Claim C9, counterexample: In a lookup-table load, the empty `descricao`
field of the input line `01;` is stored as NULL (`none`), not as empty
text: `pd.read_csv` is called with its default NA filtering enabled, which
turns an empty field into NaN, and `to_sql` stores NaN as NULL. -/
theorem lookup_empty_field_stored_null :
    (carregaTabelaCodigo ".CNAECSV" "cnae" c9_state).map
        (fun s => s.tables "cnae") =
      some (some { cols := ["codigo", "descricao"],
                   rows := [[some "01", none]] }) ∧
    decodeField lookupCsvConfig "" = none := by
  exact ⟨by decide, rfl⟩

/-- Claim C9, amended: Both loaders decode with the latin1 encoding and the
semicolon delimiter; fact-table loads (NA filtering disabled by
`na_filter=None`) store every field, empty included, verbatim as text; but
lookup-table loads keep pandas' default NA filtering, so an empty input
field is stored as NULL, not as empty text. -/
theorem csv_decoding_amended (s : String) :
    lookupCsvConfig.sep = ';' ∧ lookupCsvConfig.encoding = "latin1" ∧
    factCsvConfig.sep = ';' ∧ factCsvConfig.encoding = "latin1" ∧
    decodeField factCsvConfig s = some s ∧
    parseLine factCsvConfig "a;" = [some "a", some ""] ∧
    decodeField lookupCsvConfig "" = none :=
  ⟨rfl, rfl, rfl, rfl, rfl, by decide, rfl⟩

end RedeCnpj
